import Mathlib

/-!
Verification of the cute-chess-bot Discord bot (src/src/main.rs) against its
natural-language specification. The program is a thin set of command handlers
over the serenity gateway client; the embedding below models the in-process
data (quote and reason corpora), the random selection, the reply construction,
and the abort/log behaviour of each handler, with the external boundaries
(environment, HTTP calls, the outbound send) passed in as explicit results.
-/

namespace CuteChessBot

/-- RGB color as built by serenity's Color::from_rgb. -/
structure Color where
  red : Nat
  green : Nat
  blue : Nat
deriving DecidableEq, Repr

/-- EMBED_SIDE_COLOR from src/src/main.rs line 37: Color::from_rgb(255, 192, 203), the fixed pink accent. -/
def EMBED_SIDE_COLOR : Color := { red := 255, green := 192, blue := 203 }

/-- BlitzQuote from src/src/main.rs lines 48-52: a quote text and its author. -/
structure BlitzQuote where
  quote : String
  author : String
deriving DecidableEq, Repr

/-- BlitzQuote::new from src/src/main.rs lines 54-61. -/
def BlitzQuote.new (quote author : String) : BlitzQuote :=
  { quote := quote, author := author }

/-- The literal 9-entry quote corpus inserted into the client data at startup
(src/src/main.rs lines 142-152). -/
def theQuotes : List BlitzQuote :=
  [ BlitzQuote.new "Rapid and blitz chess is first of all for enjoyment." "Magnus Carlsen",
    BlitzQuote.new "Playing rapid chess, one can lose the habit of concentrating for several hours in serious chess. That is why, if a player has big aims, he should limit his rapid play in favour of serious chess." "Vladimir Kramnik",
    BlitzQuote.new "He who analyses blitz is stupid." "Rashid Nezhmetdinov",
    BlitzQuote.new "Blitz chess kills your ideas." "Bobby Fischer",
    BlitzQuote.new "To be honest, I consider [bullet chess] a bit moronic, and therefore I never play it." "Vladimir Kramnik",
    BlitzQuote.new "I play way too much blitz chess. It rots the brain just as surely as alcohol." "Nigel Short",
    BlitzQuote.new "Blitz is simply a waste of time." "Vladimir Malakhov",
    BlitzQuote.new "[Blitz] is just getting positions where you can move fast. I mean, it's not chess." "Hikaru Nakamura",
    BlitzQuote.new "Always sack the exchange!" "Ben F6gold" ]

/-- The literal 4-entry reason corpus. In the source this vec literal stands
inside the whyrust handler body (src/src/main.rs line 225), so it is built
anew on every whyrust invocation; see whyrustRun. -/
def theReasons : List String :=
  ["Why not?", "Sane defaults", "It is fun!", "cargo"]

/-- A structured embed payload as assembled through serenity's CreateEmbed
builder: optional title, optional description, (name, value, inlineFlag)
fields, optional footer text, optional accent color. -/
structure Embed where
  title : Option String := none
  description : Option String := none
  fields : List (String × String × Bool) := []
  footerText : Option String := none
  color : Option Color := none
deriving DecidableEq, Repr

/-- One outbound send call handed to the transport: either a structured embed
or plain text. -/
inductive SendCall where
  | embed : Embed → SendCall
  | plainText : String → SendCall
deriving DecidableEq, Repr

/-- How a handler or the main function terminates: normally, or aborted by a
Rust panic carrying a diagnostic message (expect / index / gen_range aborts). -/
inductive Outcome where
  | ok : Outcome
  | panicked : String → Outcome
deriving DecidableEq, Repr

/-- Observable effects of one handler invocation: the send calls attempted (in
order), the log lines printed, the reason-corpus list literals constructed
locally during the run (lifecycle instrumentation for the store claims), and
the termination outcome. -/
structure HandlerRun where
  sends : List SendCall := []
  logs : List String := []
  localCorpora : List (List String) := []
  result : Outcome := Outcome.ok
deriving DecidableEq, Repr

/-- rand's Rng::gen_range over the half-open range lo..hi, with the drawn
entropy modelled by `seed`: returns lo + seed % (hi - lo) when the range is
non-empty, and fails with rand's empty-range abort message otherwise
(gen_range on an empty range aborts the caller). -/
def gen_range (seed lo hi : Nat) : Except String Nat :=
  if lo < hi then Except.ok (lo + seed % (hi - lo))
  else Except.error "cannot sample empty range"

/-- The spec's name for this failure: selecting from an empty store. In the
code it is rand's gen_range abort on the empty range 0..0
(src/src/main.rs line 194 with quotes.len() = 0). -/
def EmptyStoreError : String := "cannot sample empty range"

/-- The selection step of the blitz handler (src/src/main.rs lines 191-198),
under the spec's name pick_random: draw an index from [0, store.length) and
return the entry at that index. Indexing out of bounds would abort like the
Rust vec index. -/
def pick_random {α : Type} (store : List α) (seed : Nat) : Except String (Nat × α) :=
  match gen_range seed 0 store.length with
  | Except.error e => Except.error e
  | Except.ok index =>
    match store[index]? with
    | some entry => Except.ok (index, entry)
    | none => Except.error "index out of bounds"

/-- The reply construction of the blitz handler (src/src/main.rs lines
197-213), under the spec's name render_quote: description is the quote text
wrapped in double quotes, footer is "- " followed by the author, accent color
is EMBED_SIDE_COLOR, no title, no fields. -/
def render_quote (q : BlitzQuote) : Embed :=
  { title := none,
    description := some ("\"" ++ q.quote ++ "\""),
    fields := [],
    footerText := some ("- " ++ q.author),
    color := some EMBED_SIDE_COLOR }

/-- The reply construction of the whyrust handler (src/src/main.rs lines
224-239), under the spec's name render_reason: fixed title "Why rust?!",
description is the chosen reason text, accent color EMBED_SIDE_COLOR. -/
def render_reason (choice : String) : Embed :=
  { title := some "Why rust?!",
    description := some choice,
    fields := [],
    footerText := none,
    color := some EMBED_SIDE_COLOR }

/-- The blitz command handler (src/src/main.rs lines 184-220). `data` is the
BlitzQuoteContainer entry read from the shared typemap (`expect` aborts when
absent); `seed` models the thread_rng draw; `sendResult` is the outcome of the
one channel send. A failed send is answered by
`.expect("error making message")`, i.e. a panic, not a log. -/
def blitzRun (data : Option (List BlitzQuote)) (seed : Nat)
    (sendResult : Except String Unit) : HandlerRun :=
  match data with
  | none => { result := Outcome.panicked "Expected blitz quotes in typemap." }
  | some quotes =>
    match gen_range seed 0 quotes.length with
    | Except.error e => { result := Outcome.panicked e }
    | Except.ok index =>
      match quotes[index]? with
      | none => { result := Outcome.panicked "index out of bounds" }
      | some q =>
        let payload := render_quote q
        match sendResult with
        | Except.ok _ => { sends := [SendCall.embed payload] }
        | Except.error _ =>
          { sends := [SendCall.embed payload],
            result := Outcome.panicked "error making message" }

/-- The whyrust command handler (src/src/main.rs lines 222-246). The reasons
vec literal is constructed inside the handler body on every invocation, which
`localCorpora` records; `seed` models the thread_rng draw; a failed send is
answered by `.expect("error making message")`. -/
def whyrustRun (seed : Nat) (sendResult : Except String Unit) : HandlerRun :=
  let reasons := theReasons
  match gen_range seed 0 reasons.length with
  | Except.error e => { localCorpora := [reasons], result := Outcome.panicked e }
  | Except.ok random_index =>
    match reasons[random_index]? with
    | none => { localCorpora := [reasons], result := Outcome.panicked "index out of bounds" }
    | some choice =>
      let payload := render_reason choice
      match sendResult with
      | Except.ok _ => { sends := [SendCall.embed payload], localCorpora := [reasons] }
      | Except.error _ =>
        { sends := [SendCall.embed payload],
          localCorpora := [reasons],
          result := Outcome.panicked "error making message" }

/-- The color command handler (src/src/main.rs lines 162-182): a fully static
embed; a failed send is answered by `.expect("error making message")`. -/
def colorRun (sendResult : Except String Unit) : HandlerRun :=
  let bot_channel_id : Int := 855703545398427668
  let desc := "You can get cute :sparkles: by using the color commands at <#"
    ++ toString bot_channel_id
    ++ ">\nUse `color list` to list all the available colors\nThen `color = [color name or number]` to set your role color!\nIf you'd like a color that is not on the list, let Lucy know!"
  let payload : Embed :=
    { title := some "Set your own role color!",
      description := some desc,
      fields := [],
      footerText := none,
      color := some EMBED_SIDE_COLOR }
  match sendResult with
  | Except.ok _ => { sends := [SendCall.embed payload] }
  | Except.error _ =>
    { sends := [SendCall.embed payload],
      result := Outcome.panicked "error making message" }

/-- The unrecognised-command hook (src/src/main.rs lines 82-85): one println
naming the attempted command, no send. -/
def unknown_command (name : String) : HandlerRun :=
  { logs := ["Could not find command named '" ++ name ++ "'"] }

/-- The client's shared typemap as populated by main (src/src/main.rs lines
138-155): the ShardManagerContainer entry (modelled as a presence flag) and
the BlitzQuoteContainer entry. No reason-store entry is ever inserted. -/
structure TypeMap where
  shard_manager : Bool
  blitz_quotes : Option (List BlitzQuote)
deriving DecidableEq, Repr

/-- The shared data right after main's startup block: shard manager handle and
the 9-entry quote corpus, inserted exactly once (src/src/main.rs lines 138-155). -/
def startupData : TypeMap :=
  { shard_manager := true, blitz_quotes := some theQuotes }

/-- One inbound event dispatched to this program's handlers: a recognised
command (with the rng draw and the send outcome it will observe) or an
unrecognised command name. -/
inductive Event where
  | blitzCmd (seed : Nat) (sendResult : Except String Unit)
  | whyrustCmd (seed : Nat) (sendResult : Except String Unit)
  | colorCmd (sendResult : Except String Unit)
  | unknownCmd (name : String)

/-- Dispatch of one event against the shared typemap. Handlers read the
typemap (ctx.data.read()) and never write it, so the state component is
returned unchanged by every branch. -/
def step (s : TypeMap) (e : Event) : TypeMap × HandlerRun :=
  match e with
  | Event.blitzCmd seed sr => (s, blitzRun s.blitz_quotes seed sr)
  | Event.whyrustCmd seed sr => (s, whyrustRun seed sr)
  | Event.colorCmd sr => (s, colorRun sr)
  | Event.unknownCmd name => (s, unknown_command name)

/-- The shared typemap after a sequence of handler invocations. -/
def runTrace (s : TypeMap) : List Event → TypeMap
  | [] => s
  | e :: es => runTrace (step s e).1 es

/-- External actions main performs at startup, in order (src/src/main.rs
lines 88-160). -/
inductive StartupAction where
  | fetchApplicationInfo
  | fetchCurrentUser
  | buildClient
  | connectGateway
deriving DecidableEq, Repr

/-- Observable effects of one run of main: the external actions attempted in
order, the shared data in place once setup finished (none if startup aborted
before the insertion block), log lines, and the termination outcome. -/
structure StartupRun where
  actions : List StartupAction
  dataAfterSetup : Option TypeMap
  logs : List String
  outcome : Outcome
deriving DecidableEq, Repr

/-- The main function (src/src/main.rs lines 87-160), with the process
environment and each fallible external call passed in as explicit results.
A missing CUTE_BOT_TOKEN aborts at the very first statement via `expect`,
before any HTTP object or connection exists; each later failure aborts with
its own diagnostic, except the final client.start error which is logged. -/
def mainRun (env : String → Option String)
    (appInfo : Except String Unit) (currentUser : Except String Unit)
    (clientBuild : Except String Unit) (clientStart : Except String Unit) :
    StartupRun :=
  match env "CUTE_BOT_TOKEN" with
  | none =>
    { actions := [], dataAfterSetup := none, logs := [],
      outcome := Outcome.panicked "Expected a token in the environment" }
  | some _token =>
    match appInfo with
    | Except.error why =>
      { actions := [StartupAction.fetchApplicationInfo],
        dataAfterSetup := none, logs := [],
        outcome := Outcome.panicked ("Could not access application info: " ++ why) }
    | Except.ok _ =>
      match currentUser with
      | Except.error why =>
        { actions := [StartupAction.fetchApplicationInfo, StartupAction.fetchCurrentUser],
          dataAfterSetup := none, logs := [],
          outcome := Outcome.panicked ("Could not access the bot id: " ++ why) }
      | Except.ok _ =>
        match clientBuild with
        | Except.error _ =>
          { actions := [StartupAction.fetchApplicationInfo, StartupAction.fetchCurrentUser,
              StartupAction.buildClient],
            dataAfterSetup := none, logs := [],
            outcome := Outcome.panicked "Err creating client" }
        | Except.ok _ =>
          match clientStart with
          | Except.error why =>
            { actions := [StartupAction.fetchApplicationInfo, StartupAction.fetchCurrentUser,
                StartupAction.buildClient, StartupAction.connectGateway],
              dataAfterSetup := some startupData,
              logs := ["Client error: " ++ why],
              outcome := Outcome.ok }
          | Except.ok _ =>
            { actions := [StartupAction.fetchApplicationInfo, StartupAction.fetchCurrentUser,
                StartupAction.buildClient, StartupAction.connectGateway],
              dataAfterSetup := some startupData,
              logs := [],
              outcome := Outcome.ok }

/-- Modelled from the spec: the reply embed of the second program variant's
literal "!ping" text match. That variant is not under src/ (only this spec
section describes it): title "This is a title", description "This is a
description", two inline fields and one non-inline field, footer "This is a
footer". Field names and values are not given by the spec, so placeholder
strings stand for them. -/
def pingEmbed : Embed :=
  { title := some "This is a title",
    description := some "This is a description",
    fields := [("first field name", "first field value", true),
               ("second field name", "second field value", true),
               ("third field name", "third field value", false)],
    footerText := some "This is a footer",
    color := none }

/-- Modelled from the spec: the raw message-text dispatch of the second
program variant, absent from src/. A message whose text is exactly "!ping"
yields one send call carrying pingEmbed; other texts handled by that variant
(the ".pics" link reply) are outside the claim being checked and modelled as
no send. -/
def onMessage (text : String) : List SendCall :=
  if text = "!ping" then [SendCall.embed pingEmbed] else []

end CuteChessBot

namespace CuteChessBot

lemma step_fst (s : TypeMap) (e : Event) : (step s e).1 = s := by
  cases e <;> rfl

/-- C2: for every quote entry, the reply payload built by the quote command
has description equal to the quote text wrapped in double quotes, footer
"- " followed by the author, accent color EMBED_SIDE_COLOR and no title; for
the Malakhov entry (index 6 of the literal corpus) the description and footer
are the two concrete strings the spec gives. -/
theorem render_quote_spec :
    (∀ q : BlitzQuote,
      (render_quote q).description = some ("\"" ++ q.quote ++ "\"") ∧
      (render_quote q).footerText = some ("- " ++ q.author) ∧
      (render_quote q).color = some EMBED_SIDE_COLOR ∧
      (render_quote q).title = none) ∧
    theQuotes[6]? = some (BlitzQuote.new "Blitz is simply a waste of time." "Vladimir Malakhov") ∧
    (render_quote (BlitzQuote.new "Blitz is simply a waste of time." "Vladimir Malakhov")).description
      = some "\"Blitz is simply a waste of time.\"" ∧
    (render_quote (BlitzQuote.new "Blitz is simply a waste of time." "Vladimir Malakhov")).footerText
      = some "- Vladimir Malakhov" :=
  ⟨fun _q => ⟨rfl, rfl, rfl, rfl⟩, rfl, rfl, rfl⟩

lemma blitzRun_error_eq (quotes : List BlitzQuote) (seed : Nat) (e : String)
    (h : 0 < quotes.length) :
    blitzRun (some quotes) seed (Except.error e) =
      { sends := [SendCall.embed (render_quote (quotes.get ⟨seed % quotes.length, Nat.mod_lt seed h⟩))],
        logs := [], localCorpora := [],
        result := Outcome.panicked "error making message" } := by
  have hget : quotes[seed % quotes.length]? =
      some (quotes.get ⟨seed % quotes.length, Nat.mod_lt seed h⟩) :=
    List.getElem?_eq_getElem (Nat.mod_lt seed h)
  simp [blitzRun, gen_range, h, hget]

lemma theReasons_length : theReasons.length = 4 := rfl

lemma theReasons_getElem? (seed : Nat) :
    theReasons[seed % 4]? =
      some (theReasons.get ⟨seed % 4, Nat.mod_lt seed (by decide)⟩) :=
  List.getElem?_eq_getElem (Nat.mod_lt seed (by decide))

lemma whyrustRun_localCorpora (seed : Nat) (sr : Except String Unit) :
    (whyrustRun seed sr).localCorpora = [theReasons] := by
  cases sr <;> simp [whyrustRun, gen_range, theReasons_length, theReasons_getElem? seed]

/-- C4: for every store with length n greater than 0, pick_random draws one
index in the interval from 0 (included) to n (excluded) and returns the entry
stored at that index. -/
theorem pick_random_in_range {α : Type} (store : List α) (seed : Nat)
    (h : 0 < store.length) :
    ∃ i : Nat, i < store.length ∧ ∃ entry, store[i]? = some entry ∧
      pick_random store seed = Except.ok (i, entry) := by
  have hlt : seed % store.length < store.length := Nat.mod_lt seed h
  have hget : store[seed % store.length]? = some (store.get ⟨seed % store.length, hlt⟩) :=
    List.getElem?_eq_getElem hlt
  refine ⟨seed % store.length, hlt, store.get ⟨seed % store.length, hlt⟩, hget, ?_⟩
  simp [pick_random, gen_range, h, hget]

/-- C4 witness: the theorem applied to the program's 9-entry quote corpus with
a concrete rng draw. -/
theorem pick_random_in_range_witness :
    ∃ i : Nat, i < theQuotes.length ∧ ∃ entry, theQuotes[i]? = some entry ∧
      pick_random theQuotes 7 = Except.ok (i, entry) :=
  pick_random_in_range theQuotes 7 (by decide)

/-- C3: pick_random on an empty store fails with EmptyStoreError (rand's
empty-range abort), which differs from the send-failure diagnostic, and the
blitz handler given an empty store performs no send and prints no log before
aborting, whatever the send boundary would have answered: no partial side
effects occur. -/
theorem pick_random_empty_store (seed : Nat) (sendResult : Except String Unit) :
    pick_random ([] : List BlitzQuote) seed = Except.error EmptyStoreError ∧
    blitzRun (some []) seed sendResult =
      { sends := [], logs := [], localCorpora := [],
        result := Outcome.panicked EmptyStoreError } ∧
    EmptyStoreError ≠ "error making message" :=
  ⟨rfl, rfl, by decide⟩

/-- C1 counterexample: with the send boundary answering an error, each of the
three handlers aborts by a panic carrying "error making message" and prints no
log line at all, so the failure is neither logged nor swallowed: the handler
crashes instead of dropping the request silently. -/
theorem send_failure_counterexample :
    (blitzRun (some theQuotes) 0 (Except.error "connection reset")).result
        = Outcome.panicked "error making message" ∧
    (blitzRun (some theQuotes) 0 (Except.error "connection reset")).logs = [] ∧
    (whyrustRun 0 (Except.error "connection reset")).result
        = Outcome.panicked "error making message" ∧
    (whyrustRun 0 (Except.error "connection reset")).logs = [] ∧
    (colorRun (Except.error "connection reset")).result
        = Outcome.panicked "error making message" ∧
    (colorRun (Except.error "connection reset")).logs = [] ∧
    Outcome.panicked "error making message" ≠ Outcome.ok :=
  ⟨rfl, rfl, rfl, rfl, rfl, rfl, fun hcontra => Outcome.noConfusion hcontra⟩

/-- C1 amended: for every command handler (blitz, whyrust, color), if the
outbound send fails the handler makes exactly one send attempt (no retry),
logs nothing, and aborts by a panic with the expect message "error making
message"; the failure is neither logged nor swallowed, and no user-visible
error is sent. -/
theorem send_failure_amended (seed : Nat) (e : String) :
    ((blitzRun (some theQuotes) seed (Except.error e)).result
        = Outcome.panicked "error making message" ∧
      (blitzRun (some theQuotes) seed (Except.error e)).sends.length = 1 ∧
      (blitzRun (some theQuotes) seed (Except.error e)).logs = []) ∧
    ((whyrustRun seed (Except.error e)).result = Outcome.panicked "error making message" ∧
      (whyrustRun seed (Except.error e)).sends.length = 1 ∧
      (whyrustRun seed (Except.error e)).logs = []) ∧
    ((colorRun (Except.error e)).result = Outcome.panicked "error making message" ∧
      (colorRun (Except.error e)).sends.length = 1 ∧
      (colorRun (Except.error e)).logs = []) := by
  have hb := blitzRun_error_eq theQuotes seed e (by decide)
  refine ⟨⟨?_, ?_, ?_⟩, ⟨?_, ?_, ?_⟩, rfl, rfl, rfl⟩
  · simp [hb]
  · simp [hb]
  · simp [hb]
  · simp [whyrustRun, gen_range, theReasons_length, theReasons_getElem? seed]
  · simp [whyrustRun, gen_range, theReasons_length, theReasons_getElem? seed]
  · simp [whyrustRun, gen_range, theReasons_length, theReasons_getElem? seed]

/-- C5: for every reason entry, the reply payload built by the reason command
has the fixed title "Why rust?!", description equal to the entry text, and
accent color EMBED_SIDE_COLOR; index 3 of the literal 4-entry corpus is
"cargo" and renders with description "cargo". -/
theorem render_reason_spec :
    (∀ r : String,
      (render_reason r).title = some "Why rust?!" ∧
      (render_reason r).description = some r ∧
      (render_reason r).color = some EMBED_SIDE_COLOR) ∧
    theReasons[3]? = some "cargo" ∧
    (render_reason "cargo").description = some "cargo" :=
  ⟨fun _r => ⟨rfl, rfl, rfl⟩, rfl, rfl⟩

/-- C6 counterexample: a whyrust invocation dispatched after startup
constructs the reason corpus locally (its localCorpora instrumentation is
non-empty), and a second invocation constructs it again, so the Reason Store
is reconstructed on every handler invocation rather than populated exactly
once at process startup; the shared typemap populated at startup carries no
reason store at all, only the shard-manager handle and the quote corpus. -/
theorem reason_store_reconstructed :
    ((step startupData (Event.whyrustCmd 0 (Except.ok ()))).2).localCorpora = [theReasons] ∧
    ((step startupData (Event.whyrustCmd 1 (Except.ok ()))).2).localCorpora = [theReasons] ∧
    theReasons ≠ [] :=
  ⟨rfl, rfl, by decide⟩

/-- C6 amended: the Quote Store is populated exactly once at startup into the
shared typemap and never mutated, deleted or reconstructed afterwards: every
handler invocation leaves the shared data unchanged, so after any sequence of
invocations the blitz handler still reads the same 9-entry corpus. The Reason
Store however lives outside the shared data: whyrust rebuilds the same
literal 4-entry list on every invocation, so its contents never vary although
the list itself is reconstructed per call. -/
theorem store_lifecycle_amended :
    startupData.blitz_quotes = some theQuotes ∧
    (∀ s : TypeMap, ∀ e : Event, (step s e).1 = s) ∧
    (∀ events : List Event, runTrace startupData events = startupData) ∧
    (∀ seed : Nat, ∀ sr : Except String Unit,
      (whyrustRun seed sr).localCorpora = [theReasons]) := by
  refine ⟨rfl, step_fst, ?_, whyrustRun_localCorpora⟩
  intro events
  induction events with
  | nil => rfl
  | cons e es ih => rw [runTrace, step_fst]; exact ih

/-- C7: an inbound message whose text is exactly "!ping" yields one send call
whose payload has title "This is a title", description "This is a
description", two inline fields, one non-inline field and footer "This is a
footer" (dispatch and payload modelled from the spec, this program variant not
being under src/). -/
theorem ping_reply_spec :
    onMessage "!ping" = [SendCall.embed pingEmbed] ∧
    pingEmbed.title = some "This is a title" ∧
    pingEmbed.description = some "This is a description" ∧
    (pingEmbed.fields.filter (fun f => f.2.2)).length = 2 ∧
    (pingEmbed.fields.filter (fun f => !f.2.2)).length = 1 ∧
    pingEmbed.footerText = some "This is a footer" := by
  refine ⟨?_, rfl, rfl, rfl, rfl, rfl⟩
  simp [onMessage]

/-- C8: for every inbound command name outside the registered set, the
unrecognised-command hook prints exactly one log line, that line contains the
attempted command name, and no send call is made. -/
theorem unknown_command_spec (name : String) :
    (unknown_command name).logs = ["Could not find command named '" ++ name ++ "'"] ∧
    (unknown_command name).logs.length = 1 ∧
    (unknown_command name).sends = [] ∧
    ∃ pre post : String,
      "Could not find command named '" ++ name ++ "'" = pre ++ name ++ post :=
  ⟨rfl, rfl, rfl, "Could not find command named '", "'", rfl⟩

/-- C9: if the CUTE_BOT_TOKEN environment variable is absent, main aborts at
its first statement with the expect diagnostic, before fetching any identity,
building the client or connecting to the gateway: it performs zero external
actions (hence no retry), inserts no shared data and logs nothing. -/
theorem missing_token_aborts (env : String → Option String)
    (appInfo currentUser clientBuild clientStart : Except String Unit)
    (h : env "CUTE_BOT_TOKEN" = none) :
    mainRun env appInfo currentUser clientBuild clientStart =
      { actions := [], dataAfterSetup := none, logs := [],
        outcome := Outcome.panicked "Expected a token in the environment" } := by
  simp [mainRun, h]

/-- C9 witness: the theorem applied to the empty environment with all external
calls succeeding. -/
theorem missing_token_aborts_witness :
    ((fun _ => none : String → Option String) "CUTE_BOT_TOKEN" = none) ∧
    mainRun (fun _ => none) (Except.ok ()) (Except.ok ()) (Except.ok ()) (Except.ok ()) =
      { actions := [], dataAfterSetup := none, logs := [],
        outcome := Outcome.panicked "Expected a token in the environment" } :=
  ⟨rfl, missing_token_aborts (fun _ => none) (Except.ok ()) (Except.ok ())
    (Except.ok ()) (Except.ok ()) rfl⟩

/-- C10: every reply the quote command hands to the send boundary is
internally consistent: whatever the rng draw and the send outcome, there is a
single index i into the store such that the description is entry i's quote
text wrapped in double quotes and the footer is "- " followed by the author
of that same entry i. -/
theorem blitz_reply_consistent (quotes : List BlitzQuote) (seed : Nat)
    (sendResult : Except String Unit) (h : 0 < quotes.length) :
    ∃ i : Nat, i < quotes.length ∧ ∃ q, quotes[i]? = some q ∧
      (blitzRun (some quotes) seed sendResult).sends =
        [SendCall.embed
          { title := none,
            description := some ("\"" ++ q.quote ++ "\""),
            fields := [],
            footerText := some ("- " ++ q.author),
            color := some EMBED_SIDE_COLOR }] := by
  have hlt : seed % quotes.length < quotes.length := Nat.mod_lt seed h
  have hget : quotes[seed % quotes.length]? = some (quotes.get ⟨seed % quotes.length, hlt⟩) :=
    List.getElem?_eq_getElem hlt
  refine ⟨seed % quotes.length, hlt, quotes.get ⟨seed % quotes.length, hlt⟩, hget, ?_⟩
  cases sendResult <;> simp [blitzRun, gen_range, h, hget, render_quote]

/-- C10 witness: the theorem applied to the program's quote corpus with a
concrete rng draw and a successful send. -/
theorem blitz_reply_consistent_witness :
    ∃ i : Nat, i < theQuotes.length ∧ ∃ q, theQuotes[i]? = some q ∧
      (blitzRun (some theQuotes) 0 (Except.ok ())).sends =
        [SendCall.embed
          { title := none,
            description := some ("\"" ++ q.quote ++ "\""),
            fields := [],
            footerText := some ("- " ++ q.author),
            color := some EMBED_SIDE_COLOR }] :=
  blitz_reply_consistent theQuotes 0 (Except.ok ()) (by decide)

end CuteChessBot
